import Mathlib

/-!
Shallow embedding of `register_ou_control_tower.py`.

The remote Control Tower control plane is modelled as response oracles:
each function of the script that issues a remote call takes the sequence
of responses it would observe as an explicit argument.  Sleeping is not
observable and is dropped; attempt counters are kept explicitly so that
"after exactly N polls / N retries" is statable.  Python exceptions are
modelled with `Except` (for raising functions) and with explicit
constructors (for caught `ClientError`s inside a response type).
-/

namespace CT

/-- Substring test on character lists: `listHasSub cs pat` is `true` iff
`pat` occurs contiguously inside `cs` (Python's `pat in s`). -/
def listIsPrefixOf : List Char → List Char → Bool
  | [], _ => true
  | _ :: _, [] => false
  | p :: ps, c :: cs => p == c && listIsPrefixOf ps cs

def listHasSub (cs pat : List Char) : Bool :=
  match cs with
  | [] => listIsPrefixOf pat []
  | c :: rest => listIsPrefixOf pat (c :: rest) || listHasSub rest pat

/-- Python's `pat in s` substring containment on strings. -/
def strHasSub (s pat : String) : Bool := listHasSub s.data pat.data

/-- One entry of the `list_baselines()` response: `{name, arn}`. -/
structure Baseline where
  name : String
  arn : String
deriving DecidableEq, Repr

/-- One entry of the `list_enabled_baselines()` response: `{arn}`. -/
structure EnabledBaseline where
  arn : String
deriving DecidableEq, Repr

/-- `get_baseline_identifier`: scan the baseline list in order and return
the `arn` of the first entry named exactly `AWSControlTowerBaseline`;
raise (here: `Except.error`) when no entry matches. -/
def get_baseline_identifier : List Baseline → Except String String
  | [] => .error "AWSControlTowerBaseline not found"
  | b :: rest =>
    if b.name = "AWSControlTowerBaseline" then .ok b.arn
    else get_baseline_identifier rest

/-- The marker substring the source tests with `'arn' in baseline['arn']`. -/
def identityCenterMarker : String := "arn"

/-- `get_identity_center_enabled_baseline_arn`: scan the enabled-baseline
list in order and return the `arn` of the first entry whose `arn` string
contains `identityCenterMarker`; raise when no entry matches. -/
def get_identity_center_enabled_baseline_arn :
    List EnabledBaseline → Except String String
  | [] => .error "IdentityCenterBaseline not found"
  | b :: rest =>
    if strHasSub b.arn identityCenterMarker then .ok b.arn
    else get_identity_center_enabled_baseline_arn rest

/-- The control plane's reaction to one `enable_baseline` API call:
either a successful response whose `operationIdentifier` field may be
absent, or a `ClientError` carrying an error code and message. -/
inductive EnableResponse where
  | ok (operationIdentifier : Option String)
  | err (code message : String)
deriving DecidableEq, Repr

/-- What the Python function `enable_baseline` does with one call:
either it returns a value (`None` or a string) or it re-raises. -/
inductive EnableResult where
  | ret (operationId : Option String)
  | raised (code message : String)
deriving DecidableEq, Repr

/-- `enable_baseline`: classify the control-plane response.  A
`ConflictException` whose message contains `already governed` returns
`None`; otherwise one whose message contains
`another operation is in progress` returns the string `IN_PROGRESS`;
every other `ClientError` is re-raised; a successful response returns
`response.get('operationIdentifier')`. -/
def enable_baseline (resp : EnableResponse) : EnableResult :=
  match resp with
  | .ok opId => .ret opId
  | .err code msg =>
    if code = "ConflictException" then
      if strHasSub msg "already governed" then .ret none
      else if strHasSub msg "another operation is in progress" then
        .ret (some "IN_PROGRESS")
      else .raised code msg
    else .raised code msg

/-- The control plane's reaction to one `get_baseline_operation` poll:
either a `ClientError` (caught and retried by the poller) or a response
whose `baselineOperation.status` field may be absent. -/
inductive PollResponse where
  | ok (status : Option String)
  | err (message : String)
deriving DecidableEq, Repr

/-- Poll budget of `check_operation_status` (`max_attempts = 40`). -/
def pollBudget : Nat := 40

/-- Loop body of `check_operation_status`: `fuel` is the number of
attempts remaining, `i` the index of the next poll.  Returns the boolean
result together with the total number of polls performed.  A truthy
status `SUCCEEDED` returns `true` at once, `FAILED` returns `false` at
once; a missing / falsy / unrecognized status and a `ClientError` both
fall through to the next attempt. -/
def check_aux (polls : Nat → PollResponse) : Nat → Nat → Bool × Nat
  | 0, i => (false, i)
  | fuel + 1, i =>
    match polls i with
    | .err _ => check_aux polls fuel (i + 1)
    | .ok none => check_aux polls fuel (i + 1)
    | .ok (some s) =>
      if s = "" then check_aux polls fuel (i + 1)
      else if s = "SUCCEEDED" then (true, i + 1)
      else if s = "FAILED" then (false, i + 1)
      else check_aux polls fuel (i + 1)

/-- `check_operation_status`: poll up to `pollBudget` times; exhausting
the budget yields `false`. -/
def check_operation_status (polls : Nat → PollResponse) : Bool × Nat :=
  check_aux polls pollBudget 0

/-- The status the poller effectively acts on for one poll response:
`none` for a `ClientError`, a missing field, or a falsy (empty) status. -/
def effStatus : PollResponse → Option String
  | .err _ => none
  | .ok none => none
  | .ok (some s) => if s = "" then none else some s

def isSucceededPoll (p : PollResponse) : Bool := effStatus p == some "SUCCEEDED"

def isTerminalPoll (p : PollResponse) : Bool :=
  effStatus p == some "SUCCEEDED" || effStatus p == some "FAILED"

/-- Attempt budget of `wait_for_in_progress_operations`
(`max_attempts = 20`). -/
def enableAttemptBudget : Nat := 20

/-- Whether one enable attempt's outcome makes the backoff loop sleep and
retry: the sentinel `IN_PROGRESS` return, a falsy (empty-string) return,
and any raised exception all do; a `None` return and a truthy
non-sentinel operation id do not. -/
def attemptRetries : EnableResult → Bool
  | .ret (some s) => s = "" || s = "IN_PROGRESS"
  | .ret none => false
  | .raised _ _ => true

/-- Loop body of `wait_for_in_progress_operations`: `fuel` attempts
remain, `i` is the index of the next attempt.  Each attempt calls
`enable_baseline` on the next control-plane response.  A truthy
non-`IN_PROGRESS` operation id and a `None` return end the loop (the
returned `Nat` is the index of the deciding attempt, i.e. the number of
retries before it); `IN_PROGRESS`, falsy returns and raised exceptions
sleep and retry; running out of fuel raises the timeout. -/
def wait_aux (ou_id : String) (responses : Nat → EnableResponse) :
    Nat → Nat → Except String (Option String × Nat)
  | 0, _ =>
    .error ("Timed out waiting for in-progress operations for OU " ++ ou_id)
  | fuel + 1, i =>
    match enable_baseline (responses i) with
    | .ret (some s) =>
      if s ≠ "" ∧ s ≠ "IN_PROGRESS" then .ok (some s, i)
      else wait_aux ou_id responses fuel (i + 1)
    | .ret none => .ok (none, i)
    | .raised _ _ => wait_aux ou_id responses fuel (i + 1)

/-- `wait_for_in_progress_operations`: retry `enable_baseline` up to
`enableAttemptBudget` attempts. -/
def wait_for_in_progress_operations (ou_id : String)
    (responses : Nat → EnableResponse) : Except String (Option String × Nat) :=
  wait_aux ou_id responses enableAttemptBudget 0

/-- `register_ou`: run the backoff loop; on a truthy operation id poll it
and return the poller's boolean, on `None` return `true` without polling,
on a raised exception return `false`.  The second component records
whether `check_operation_status` was invoked. -/
def register_ou (ou_id : String) (responses : Nat → EnableResponse)
    (polls : Nat → PollResponse) : Bool × Bool :=
  match wait_for_in_progress_operations ou_id responses with
  | .error _ => (false, false)
  | .ok (some s, _) =>
    if s ≠ "" then ((check_operation_status polls).fst, true)
    else (true, false)
  | .ok (none, _) => (true, false)

/-- One OU record of the input list: `{id, arn}`. -/
structure OU where
  id : String
  arn : String
deriving DecidableEq, Repr

/-- How a run of `register_ous` ends: normal completion or `sys.exit`
with the given status. -/
inductive BatchResult where
  | completed
  | exited (code : Nat)
deriving DecidableEq, Repr

/-- The `for ou in ous` loop of `register_ous`: call the registrar on
each OU in input order; on the first `false` result exit with status 1.
Returns the list of OUs on which the registrar was invoked together with
the run's end. -/
def register_ous_loop (registrar : OU → Bool) :
    List OU → List OU × BatchResult
  | [] => ([], .completed)
  | ou :: rest =>
    if registrar ou then
      let r := register_ous_loop registrar rest
      (ou :: r.fst, r.snd)
    else ([ou], .exited 1)

/-- `register_ous`: resolve the two shared identifiers once (exit 1 when
either resolution raises, invoking the registrar on no OU), then run the
per-OU loop. -/
def register_ous (baselines : List Baseline) (enabled : List EnabledBaseline)
    (registrar : OU → Bool) (ous : List OU) : List OU × BatchResult :=
  match get_baseline_identifier baselines,
      get_identity_center_enabled_baseline_arn enabled with
  | .ok _, .ok _ => register_ous_loop registrar ous
  | _, _ => ([], .exited 1)

/-! ### Lemmas about the two resolvers -/

theorem get_baseline_identifier_not_found (bs : List Baseline)
    (h : ∀ b ∈ bs, b.name ≠ "AWSControlTowerBaseline") :
    get_baseline_identifier bs = .error "AWSControlTowerBaseline not found" := by
  induction bs with
  | nil => rfl
  | cons b rest ih =>
    have hb : b.name ≠ "AWSControlTowerBaseline" := h b (List.mem_cons_self b rest)
    simp only [get_baseline_identifier, if_neg hb]
    exact ih fun x hx => h x (List.mem_cons_of_mem b hx)

theorem get_baseline_identifier_first (pre : List Baseline) (x : Baseline)
    (post : List Baseline)
    (hpre : ∀ b ∈ pre, b.name ≠ "AWSControlTowerBaseline")
    (hx : x.name = "AWSControlTowerBaseline") :
    get_baseline_identifier (pre ++ x :: post) = .ok x.arn := by
  induction pre with
  | nil => simp only [List.nil_append, get_baseline_identifier, if_pos hx]
  | cons b rest ih =>
    have hb : b.name ≠ "AWSControlTowerBaseline" :=
      hpre b (List.mem_cons_self b rest)
    simp only [List.cons_append, get_baseline_identifier, if_neg hb]
    exact ih fun y hy => hpre y (List.mem_cons_of_mem b hy)

theorem get_ic_arn_not_found (bs : List EnabledBaseline)
    (h : ∀ b ∈ bs, strHasSub b.arn identityCenterMarker = false) :
    get_identity_center_enabled_baseline_arn bs =
      .error "IdentityCenterBaseline not found" := by
  induction bs with
  | nil => rfl
  | cons b rest ih =>
    have hb := h b (List.mem_cons_self b rest)
    simp only [get_identity_center_enabled_baseline_arn, hb, Bool.false_eq_true,
      if_false]
    exact ih fun x hx => h x (List.mem_cons_of_mem b hx)

theorem get_ic_arn_first (pre : List EnabledBaseline) (x : EnabledBaseline)
    (post : List EnabledBaseline)
    (hpre : ∀ b ∈ pre, strHasSub b.arn identityCenterMarker = false)
    (hx : strHasSub x.arn identityCenterMarker = true) :
    get_identity_center_enabled_baseline_arn (pre ++ x :: post) = .ok x.arn := by
  induction pre with
  | nil =>
    simp only [List.nil_append, get_identity_center_enabled_baseline_arn, hx,
      if_true]
  | cons b rest ih =>
    have hb := hpre b (List.mem_cons_self b rest)
    simp only [List.cons_append, get_identity_center_enabled_baseline_arn, hb,
      Bool.false_eq_true, if_false]
    exact ih fun y hy => hpre y (List.mem_cons_of_mem b hy)

/-! ### Lemmas about `enable_baseline`'s classification -/

theorem enable_baseline_already_governed (msg : String)
    (h : strHasSub msg "already governed" = true) :
    enable_baseline (.err "ConflictException" msg) = .ret none := by
  simp [enable_baseline, h]

theorem enable_baseline_in_progress (msg : String)
    (h1 : strHasSub msg "already governed" = false)
    (h2 : strHasSub msg "another operation is in progress" = true) :
    enable_baseline (.err "ConflictException" msg) = .ret (some "IN_PROGRESS") := by
  simp [enable_baseline, h1, h2]

theorem enable_baseline_raises (code msg : String)
    (h : code = "ConflictException" →
      strHasSub msg "already governed" = false ∧
        strHasSub msg "another operation is in progress" = false) :
    enable_baseline (.err code msg) = .raised code msg := by
  by_cases hc : code = "ConflictException"
  · obtain ⟨h1, h2⟩ := h hc
    subst hc
    simp [enable_baseline, h1, h2]
  · simp [enable_baseline, hc]

/-! ### Lemmas about the conflict backoff loop -/

theorem wait_aux_step (ou : String) (responses : Nat → EnableResponse)
    (fuel i : Nat) (h : attemptRetries (enable_baseline (responses i)) = true) :
    wait_aux ou responses (fuel + 1) i = wait_aux ou responses fuel (i + 1) := by
  cases he : enable_baseline (responses i) with
  | ret v =>
    cases v with
    | none => rw [he] at h; simp [attemptRetries] at h
    | some s =>
      rw [he] at h
      simp only [attemptRetries, Bool.or_eq_true, decide_eq_true_eq] at h
      have hcond : ¬(s ≠ "" ∧ s ≠ "IN_PROGRESS") := by tauto
      simp only [wait_aux, he, if_neg hcond]
  | raised c m => simp only [wait_aux, he]

theorem wait_aux_return_id (ou : String) (responses : Nat → EnableResponse)
    (fuel i : Nat) (s : String)
    (he : enable_baseline (responses i) = .ret (some s))
    (h1 : s ≠ "") (h2 : s ≠ "IN_PROGRESS") :
    wait_aux ou responses (fuel + 1) i = .ok (some s, i) := by
  simp only [wait_aux, he, if_pos (And.intro h1 h2)]

theorem wait_aux_return_none (ou : String) (responses : Nat → EnableResponse)
    (fuel i : Nat) (he : enable_baseline (responses i) = .ret none) :
    wait_aux ou responses (fuel + 1) i = .ok (none, i) := by
  simp only [wait_aux, he]

theorem wait_aux_first (ou : String) (responses : Nat → EnableResponse)
    (s : String) (h1 : s ≠ "") (h2 : s ≠ "IN_PROGRESS") :
    ∀ N fuel i, N < fuel →
      (∀ j, j < N → attemptRetries (enable_baseline (responses (i + j))) = true) →
      enable_baseline (responses (i + N)) = .ret (some s) →
      wait_aux ou responses fuel i = .ok (some s, i + N) := by
  intro N
  induction N with
  | zero =>
    intro fuel i hf hr he
    obtain ⟨f, rfl⟩ : ∃ f, fuel = f + 1 := ⟨fuel - 1, by omega⟩
    rw [wait_aux_return_id ou responses f i s (by simpa using he) h1 h2,
      Nat.add_zero]
  | succ N ih =>
    intro fuel i hf hr he
    obtain ⟨f, rfl⟩ : ∃ f, fuel = f + 1 := ⟨fuel - 1, by omega⟩
    rw [wait_aux_step ou responses f i (by simpa using hr 0 (Nat.succ_pos N))]
    have hr' : ∀ j, j < N →
        attemptRetries (enable_baseline (responses (i + 1 + j))) = true := by
      intro j hj
      rw [show i + 1 + j = i + (j + 1) by omega]
      exact hr (j + 1) (by omega)
    have he' : enable_baseline (responses (i + 1 + N)) = .ret (some s) := by
      rw [show i + 1 + N = i + (N + 1) by omega]; exact he
    rw [ih f (i + 1) (by omega) hr' he']
    rw [show i + 1 + N = i + (N + 1) by omega]

theorem wait_aux_timeout (ou : String) (responses : Nat → EnableResponse) :
    ∀ fuel i,
      (∀ j, j < fuel → attemptRetries (enable_baseline (responses (i + j))) = true) →
      wait_aux ou responses fuel i =
        .error ("Timed out waiting for in-progress operations for OU " ++ ou) := by
  intro fuel
  induction fuel with
  | zero => intro i _; rfl
  | succ f ih =>
    intro i hr
    rw [wait_aux_step ou responses f i (by simpa using hr 0 (Nat.succ_pos f))]
    exact ih (i + 1) fun j hj => by
      rw [show i + 1 + j = i + (j + 1) by omega]
      exact hr (j + 1) (by omega)

/-! ### Lemmas about the operation poller -/

theorem succeeded_imp_terminal (p : PollResponse)
    (h : isSucceededPoll p = true) : isTerminalPoll p = true := by
  simp only [isTerminalPoll, Bool.or_eq_true]
  exact Or.inl h

theorem check_aux_step (polls : Nat → PollResponse) (fuel i : Nat)
    (h : isTerminalPoll (polls i) = false) :
    check_aux polls (fuel + 1) i = check_aux polls fuel (i + 1) := by
  cases hp : polls i with
  | err m => simp only [check_aux, hp]
  | ok st =>
    cases st with
    | none => simp only [check_aux, hp]
    | some s =>
      by_cases he : s = ""
      · simp only [check_aux, hp, if_pos he]
      · rw [hp] at h
        simp only [isTerminalPoll, effStatus, if_neg he, Bool.or_eq_false_iff,
          beq_eq_false_iff_ne, ne_eq, Option.some.injEq] at h
        simp only [check_aux, hp, if_neg he, if_neg h.1, if_neg h.2]

theorem check_aux_terminal (polls : Nat → PollResponse) (fuel i : Nat)
    (h : isTerminalPoll (polls i) = true) :
    check_aux polls (fuel + 1) i = (isSucceededPoll (polls i), i + 1) := by
  cases hp : polls i with
  | err m => rw [hp] at h; simp [isTerminalPoll, effStatus] at h
  | ok st =>
    cases st with
    | none => rw [hp] at h; simp [isTerminalPoll, effStatus] at h
    | some s =>
      by_cases he : s = ""
      · rw [hp] at h; simp [isTerminalPoll, effStatus, he] at h
      · rw [hp] at h
        simp only [isTerminalPoll, effStatus, if_neg he, Bool.or_eq_true,
          beq_iff_eq, Option.some.injEq] at h
        rcases h with h | h
        · subst h
          simp [check_aux, hp, isSucceededPoll, effStatus]
        · subst h
          simp [check_aux, hp, isSucceededPoll, effStatus]

theorem check_aux_timeout (polls : Nat → PollResponse) :
    ∀ fuel i, (∀ j, j < fuel → isTerminalPoll (polls (i + j)) = false) →
      check_aux polls fuel i = (false, i + fuel) := by
  intro fuel
  induction fuel with
  | zero => intro i _; simp [check_aux]
  | succ f ih =>
    intro i h
    rw [check_aux_step polls f i (by simpa using h 0 (Nat.succ_pos f))]
    rw [ih (i + 1) fun j hj => by
      rw [show i + 1 + j = i + (j + 1) by omega]
      exact h (j + 1) (by omega)]
    rw [show i + 1 + f = i + (f + 1) by omega]

theorem check_aux_first_terminal (polls : Nat → PollResponse) :
    ∀ k fuel i, k < fuel → isTerminalPoll (polls (i + k)) = true →
      (∀ j, j < k → isTerminalPoll (polls (i + j)) = false) →
      check_aux polls fuel i = (isSucceededPoll (polls (i + k)), i + k + 1) := by
  intro k
  induction k with
  | zero =>
    intro fuel i hf ht _
    obtain ⟨f, rfl⟩ : ∃ f, fuel = f + 1 := ⟨fuel - 1, by omega⟩
    rw [check_aux_terminal polls f i (by simpa using ht)]
    simp
  | succ k ih =>
    intro fuel i hf ht hprior
    obtain ⟨f, rfl⟩ : ∃ f, fuel = f + 1 := ⟨fuel - 1, by omega⟩
    rw [check_aux_step polls f i (by simpa using hprior 0 (Nat.succ_pos k))]
    have ht' : isTerminalPoll (polls (i + 1 + k)) = true := by
      rw [show i + 1 + k = i + (k + 1) by omega]; exact ht
    have hp' : ∀ j, j < k → isTerminalPoll (polls (i + 1 + j)) = false := by
      intro j hj
      rw [show i + 1 + j = i + (j + 1) by omega]
      exact hprior (j + 1) (by omega)
    rw [ih f (i + 1) (by omega) ht' hp']
    rw [show i + 1 + k = i + (k + 1) by omega]

theorem check_aux_true_iff (polls : Nat → PollResponse) :
    ∀ fuel i, (check_aux polls fuel i).fst = true ↔
      ∃ k, k < fuel ∧ isSucceededPoll (polls (i + k)) = true ∧
        ∀ j, j < k → isTerminalPoll (polls (i + j)) = false := by
  intro fuel
  induction fuel with
  | zero =>
    intro i
    simp [check_aux]
  | succ f ih =>
    intro i
    by_cases ht : isTerminalPoll (polls i) = true
    · rw [check_aux_terminal polls f i ht]
      constructor
      · intro hs
        exact ⟨0, Nat.succ_pos f, by simpa using hs, fun j hj => absurd hj (by omega)⟩
      · rintro ⟨k, hk, hsucc, hprior⟩
        cases k with
        | zero => simpa using hsucc
        | succ k =>
          have := hprior 0 (Nat.succ_pos k)
          rw [Nat.add_zero] at this
          rw [this] at ht
          exact absurd ht (by simp)
    · have ht' : isTerminalPoll (polls i) = false := by
        simpa using ht
      rw [check_aux_step polls f i ht']
      rw [ih (i + 1)]
      constructor
      · rintro ⟨k, hk, hsucc, hprior⟩
        refine ⟨k + 1, by omega, ?_, ?_⟩
        · rw [show i + (k + 1) = i + 1 + k by omega]; exact hsucc
        · intro j hj
          cases j with
          | zero => simpa using ht'
          | succ j =>
            rw [show i + (j + 1) = i + 1 + j by omega]
            exact hprior j (by omega)
      · rintro ⟨k, hk, hsucc, hprior⟩
        cases k with
        | zero =>
          rw [Nat.add_zero] at hsucc
          exact absurd (succeeded_imp_terminal _ hsucc) ht
        | succ k =>
          refine ⟨k, by omega, ?_, ?_⟩
          · rw [show i + 1 + k = i + (k + 1) by omega]; exact hsucc
          · intro j hj
            rw [show i + 1 + j = i + (j + 1) by omega]
            exact hprior (j + 1) (by omega)

/-! ### Lemmas about the batch driver -/

theorem register_ous_loop_all (registrar : OU → Bool) :
    ∀ ous : List OU, (∀ ou ∈ ous, registrar ou = true) →
      register_ous_loop registrar ous = (ous, .completed) := by
  intro ous
  induction ous with
  | nil => intro _; rfl
  | cons ou rest ih =>
    intro h
    have hou : registrar ou = true := h ou (List.mem_cons_self ou rest)
    simp only [register_ous_loop, hou, if_true,
      ih fun x hx => h x (List.mem_cons_of_mem ou hx)]

theorem register_ous_loop_first_false (registrar : OU → Bool) (x : OU)
    (hx : registrar x = false) :
    ∀ pre post : List OU, (∀ ou ∈ pre, registrar ou = true) →
      register_ous_loop registrar (pre ++ x :: post) = (pre ++ [x], .exited 1) := by
  intro pre
  induction pre with
  | nil =>
    intro post _
    simp only [List.nil_append, register_ous_loop, hx, Bool.false_eq_true,
      if_false]
  | cons ou rest ih =>
    intro post h
    have hou : registrar ou = true := h ou (List.mem_cons_self ou rest)
    simp only [List.cons_append, register_ous_loop, hou, if_true, List.append_eq,
      ih post fun y hy => h y (List.mem_cons_of_mem ou hy)]

/-! ### Claim theorems -/

/-- C1: for every enabled-baseline list in which no entry's ARN contains
the identity-center marker substring,
`get_identity_center_enabled_baseline_arn` fails with the not-found
error; for every list with at least one such entry it returns the ARN of
the first entry whose ARN contains the marker. -/
theorem C1_resolveIdentityCenterBaselineArn (bs : List EnabledBaseline) :
    ((∀ b ∈ bs, strHasSub b.arn identityCenterMarker = false) →
      get_identity_center_enabled_baseline_arn bs =
        .error "IdentityCenterBaseline not found")
    ∧ (∀ pre x post, bs = pre ++ x :: post →
        (∀ b ∈ pre, strHasSub b.arn identityCenterMarker = false) →
        strHasSub x.arn identityCenterMarker = true →
        get_identity_center_enabled_baseline_arn bs = .ok x.arn) := by
  constructor
  · exact get_ic_arn_not_found bs
  · rintro pre x post rfl hpre hx
    exact get_ic_arn_first pre x post hpre hx

/-- Witness for C1: a two-entry list with no marker match fails with
not-found; a list whose second and third entries match returns the
second's ARN. -/
theorem C1_witness :
    get_identity_center_enabled_baseline_arn [⟨"b-1"⟩, ⟨"b-2"⟩] =
      .error "IdentityCenterBaseline not found"
    ∧ get_identity_center_enabled_baseline_arn
        [⟨"b-1"⟩, ⟨"my-arn-1"⟩, ⟨"arn-2"⟩] = .ok "my-arn-1" :=
  ⟨(C1_resolveIdentityCenterBaselineArn [⟨"b-1"⟩, ⟨"b-2"⟩]).1 (by decide),
   (C1_resolveIdentityCenterBaselineArn [⟨"b-1"⟩, ⟨"my-arn-1"⟩, ⟨"arn-2"⟩]).2
     [⟨"b-1"⟩] ⟨"my-arn-1"⟩ [⟨"arn-2"⟩] rfl (by decide) (by decide)⟩

/-- C9: for every baseline list, `get_baseline_identifier` returns the
identifier (`arn` field) of the first entry named exactly
`AWSControlTowerBaseline` when one exists — first match wins, regardless
of ordering or duplicates — and fails with the not-found error when no
entry has that name. -/
theorem C9_resolveBaselineIdentifier (bs : List Baseline) :
    ((∀ b ∈ bs, b.name ≠ "AWSControlTowerBaseline") →
      get_baseline_identifier bs = .error "AWSControlTowerBaseline not found")
    ∧ (∀ pre x post, bs = pre ++ x :: post →
        (∀ b ∈ pre, b.name ≠ "AWSControlTowerBaseline") →
        x.name = "AWSControlTowerBaseline" →
        get_baseline_identifier bs = .ok x.arn) := by
  constructor
  · exact get_baseline_identifier_not_found bs
  · rintro pre x post rfl hpre hx
    exact get_baseline_identifier_first pre x post hpre hx

/-- Witness for C9: a list without the required name fails with
not-found; with duplicates of the required name the first match's
identifier is returned. -/
theorem C9_witness :
    get_baseline_identifier [⟨"Other", "a-0"⟩] =
      .error "AWSControlTowerBaseline not found"
    ∧ get_baseline_identifier
        [⟨"Other", "a-0"⟩, ⟨"AWSControlTowerBaseline", "a-1"⟩,
          ⟨"AWSControlTowerBaseline", "a-2"⟩] = .ok "a-1" :=
  ⟨(C9_resolveBaselineIdentifier [⟨"Other", "a-0"⟩]).1 (by decide),
   (C9_resolveBaselineIdentifier
      [⟨"Other", "a-0"⟩, ⟨"AWSControlTowerBaseline", "a-1"⟩,
        ⟨"AWSControlTowerBaseline", "a-2"⟩]).2
     [⟨"Other", "a-0"⟩] ⟨"AWSControlTowerBaseline", "a-1"⟩
     [⟨"AWSControlTowerBaseline", "a-2"⟩] rfl (by decide) rfl⟩

/-- C3: `enable_baseline` classifies the control-plane response: a
`ConflictException` whose message contains `already governed` yields the
already-registered outcome (`None`); a `ConflictException` whose message
indicates another operation is in progress yields the
conflict-in-progress outcome (`IN_PROGRESS`); a normal acceptance yields
the response's operation id; every other `ClientError` is re-raised. -/
theorem C3_enableBaseline_classification :
    (∀ msg, strHasSub msg "already governed" = true →
      enable_baseline (.err "ConflictException" msg) = .ret none)
    ∧ (∀ msg, strHasSub msg "already governed" = false →
        strHasSub msg "another operation is in progress" = true →
        enable_baseline (.err "ConflictException" msg) =
          .ret (some "IN_PROGRESS"))
    ∧ (∀ opId, enable_baseline (.ok opId) = .ret opId)
    ∧ (∀ code msg, (code = "ConflictException" →
          strHasSub msg "already governed" = false ∧
            strHasSub msg "another operation is in progress" = false) →
        enable_baseline (.err code msg) = .raised code msg) :=
  ⟨enable_baseline_already_governed, enable_baseline_in_progress,
   fun _ => rfl, enable_baseline_raises⟩

/-- Witness for C3: the four classification cases at concrete inputs. -/
theorem C3_witness :
    enable_baseline (.err "ConflictException" "This OU is already governed") =
      .ret none
    ∧ enable_baseline
        (.err "ConflictException" "another operation is in progress for target") =
      .ret (some "IN_PROGRESS")
    ∧ enable_baseline (.ok (some "op-42")) = .ret (some "op-42")
    ∧ enable_baseline (.err "AccessDeniedException" "not authorized") =
      .raised "AccessDeniedException" "not authorized" :=
  ⟨C3_enableBaseline_classification.1 "This OU is already governed" (by decide),
   C3_enableBaseline_classification.2.1
     "another operation is in progress for target" (by decide) (by decide),
   C3_enableBaseline_classification.2.2.1 (some "op-42"),
   C3_enableBaseline_classification.2.2.2 "AccessDeniedException"
     "not authorized" fun hc => absurd hc (by decide)⟩

/-- Counterexample for C2: a throttling error on the initial enable
attempt is re-raised by `enable_baseline`, yet the backoff loop catches
it and retries — the next attempt's operation id is returned (retry
count 1), the poller runs and `register_ou` reports success, so the
error neither propagates out of the enable path nor aborts the run. -/
theorem C2_counterexample :
    enable_baseline (.err "ThrottlingException" "Rate exceeded") =
      .raised "ThrottlingException" "Rate exceeded"
    ∧ wait_for_in_progress_operations "ou-1"
        (fun i => if i = 0 then .err "ThrottlingException" "Rate exceeded"
          else .ok (some "op-1")) = .ok (some "op-1", 1)
    ∧ register_ou "ou-1"
        (fun i => if i = 0 then .err "ThrottlingException" "Rate exceeded"
          else .ok (some "op-1"))
        (fun _ => .ok (some "SUCCEEDED")) = (true, true) :=
  ⟨rfl, rfl, rfl⟩

/-- C2 (amended): an error that is neither an already-governed conflict
nor an operation-in-progress conflict is re-raised by `enable_baseline`,
but the backoff loop catches every exception from its attempts and
retries; only when every attempt in the budget raises does the loop's
timeout surface, which `register_ou` converts into a `false` result (no
poll), aborting the run through the batch driver. -/
theorem C2_unclassified_error_caught_and_retried (code msg : String)
    (h : code = "ConflictException" →
      strHasSub msg "already governed" = false ∧
        strHasSub msg "another operation is in progress" = false) :
    enable_baseline (.err code msg) = .raised code msg
    ∧ (∀ ou_id responses fuel i, responses i = .err code msg →
        wait_aux ou_id responses (fuel + 1) i =
          wait_aux ou_id responses fuel (i + 1))
    ∧ (∀ ou_id responses polls,
        (∀ i, i < enableAttemptBudget → responses i = .err code msg) →
        register_ou ou_id responses polls = (false, false)) := by
  have hr := enable_baseline_raises code msg h
  refine ⟨hr, ?_, ?_⟩
  · intro ou_id responses fuel i hi
    exact wait_aux_step ou_id responses fuel i (by rw [hi, hr]; rfl)
  · intro ou_id responses polls hall
    have hw : wait_for_in_progress_operations ou_id responses =
        .error ("Timed out waiting for in-progress operations for OU " ++ ou_id) := by
      unfold wait_for_in_progress_operations
      apply wait_aux_timeout
      intro j hj
      rw [Nat.zero_add, hall j hj, hr]
      rfl
    simp [register_ou, hw]

/-- Witness for C2 (amended): a run whose every enable attempt is
throttled ends with a `false` result and no poll. -/
theorem C2_amended_witness :
    enable_baseline (.err "ThrottlingException" "Rate exceeded") =
      .raised "ThrottlingException" "Rate exceeded"
    ∧ register_ou "ou-9" (fun _ => .err "ThrottlingException" "Rate exceeded")
        (fun _ => .ok (some "SUCCEEDED")) = (false, false) :=
  ⟨(C2_unclassified_error_caught_and_retried "ThrottlingException"
      "Rate exceeded" fun hc => absurd hc (by decide)).1,
   (C2_unclassified_error_caught_and_retried "ThrottlingException"
      "Rate exceeded" fun hc => absurd hc (by decide)).2.2 "ou-9"
     (fun _ => .err "ThrottlingException" "Rate exceeded")
     (fun _ => .ok (some "SUCCEEDED")) fun _ _ => rfl⟩

/-- C4: the batch driver invokes the registrar on OUs exactly in input
order up to and including the first OU whose result is `false`, exits
with status 1 at that point without processing any subsequent OU, and
completes normally when every OU succeeds. -/
theorem C4_batchDriver (baselines : List Baseline)
    (enabled : List EnabledBaseline) (bid icArn : String)
    (h1 : get_baseline_identifier baselines = .ok bid)
    (h2 : get_identity_center_enabled_baseline_arn enabled = .ok icArn)
    (registrar : OU → Bool) :
    (∀ ous, (∀ ou ∈ ous, registrar ou = true) →
      register_ous baselines enabled registrar ous = (ous, .completed))
    ∧ (∀ pre x post, (∀ ou ∈ pre, registrar ou = true) → registrar x = false →
        register_ous baselines enabled registrar (pre ++ x :: post) =
          (pre ++ [x], .exited 1)) := by
  have hr : ∀ ous, register_ous baselines enabled registrar ous =
      register_ous_loop registrar ous := by
    intro ous
    simp only [register_ous, h1, h2]
  refine ⟨fun ous hall => ?_, fun pre x post hpre hx => ?_⟩
  · rw [hr]
    exact register_ous_loop_all registrar ous hall
  · rw [hr]
    exact register_ous_loop_first_false registrar x hx pre post hpre

/-- Witness for C4: with resolvable identifiers and a registrar that
fails exactly on `ou-2`, an all-successful list completes normally and a
list whose second OU fails stops there with exit status 1. -/
theorem C4_witness :
    register_ous [⟨"AWSControlTowerBaseline", "b-1"⟩] [⟨"arn-ic"⟩]
      (fun ou => ou.id != "ou-2") [⟨"ou-1", "a-1"⟩, ⟨"ou-3", "a-3"⟩] =
      ([⟨"ou-1", "a-1"⟩, ⟨"ou-3", "a-3"⟩], .completed)
    ∧ register_ous [⟨"AWSControlTowerBaseline", "b-1"⟩] [⟨"arn-ic"⟩]
        (fun ou => ou.id != "ou-2")
        [⟨"ou-1", "a-1"⟩, ⟨"ou-2", "a-2"⟩, ⟨"ou-3", "a-3"⟩] =
      ([⟨"ou-1", "a-1"⟩, ⟨"ou-2", "a-2"⟩], .exited 1) :=
  ⟨(C4_batchDriver [⟨"AWSControlTowerBaseline", "b-1"⟩] [⟨"arn-ic"⟩] "b-1"
      "arn-ic" rfl rfl (fun ou => ou.id != "ou-2")).1
     [⟨"ou-1", "a-1"⟩, ⟨"ou-3", "a-3"⟩] (by decide),
   (C4_batchDriver [⟨"AWSControlTowerBaseline", "b-1"⟩] [⟨"arn-ic"⟩] "b-1"
      "arn-ic" rfl rfl (fun ou => ou.id != "ou-2")).2
     [⟨"ou-1", "a-1"⟩] ⟨"ou-2", "a-2"⟩ [⟨"ou-3", "a-3"⟩] (by decide) rfl⟩

/-- C5: `check_operation_status` returns `true` exactly when a
`SUCCEEDED` status is observed within the 40-attempt budget before any
`FAILED` status; it returns at the first terminal status (having made
exactly that many polls), and a budget of non-terminal polls (pending,
missing status, or poll errors) yields `false` after all 40 polls. -/
theorem C5_awaitTerminal (polls : Nat → PollResponse) :
    ((check_operation_status polls).fst = true ↔
      ∃ k, k < pollBudget ∧ isSucceededPoll (polls k) = true ∧
        ∀ j, j < k → isTerminalPoll (polls j) = false)
    ∧ (∀ k, k < pollBudget → isTerminalPoll (polls k) = true →
        (∀ j, j < k → isTerminalPoll (polls j) = false) →
        check_operation_status polls = (isSucceededPoll (polls k), k + 1))
    ∧ ((∀ j, j < pollBudget → isTerminalPoll (polls j) = false) →
        check_operation_status polls = (false, pollBudget)) := by
  refine ⟨?_, ?_, ?_⟩
  · rw [check_operation_status, check_aux_true_iff polls pollBudget 0]
    simp only [Nat.zero_add]
  · intro k hk ht hp
    rw [check_operation_status]
    have := check_aux_first_terminal polls k pollBudget 0 hk
      (by simpa using ht) fun j hj => by simpa using hp j hj
    simpa using this
  · intro h
    rw [check_operation_status]
    have := check_aux_timeout polls pollBudget 0 fun j hj => by
      simpa using h j hj
    simpa using this

/-- Witness for C5: the poll sequence pending, pending, `SUCCEEDED`
yields `true` after exactly 3 polls, and 40 non-terminal polls (a mix of
poll errors, missing statuses and pending statuses) yield `false` after
all 40 polls. -/
theorem C5_witness :
    check_operation_status
      (fun i => if i < 2 then .ok (some "IN_PROGRESS")
        else .ok (some "SUCCEEDED")) = (true, 3)
    ∧ check_operation_status
        (fun i => if i % 3 = 0 then .err "transient"
          else if i % 3 = 1 then .ok none
          else .ok (some "IN_PROGRESS")) = (false, 40) := by
  constructor
  · have h := (C5_awaitTerminal
      (fun i => if i < 2 then .ok (some "IN_PROGRESS")
        else .ok (some "SUCCEEDED"))).2.1 2 (by decide) (by decide) (by decide)
    rw [h]
    decide
  · exact (C5_awaitTerminal
      (fun i => if i % 3 = 0 then .err "transient"
        else if i % 3 = 1 then .ok none
        else .ok (some "IN_PROGRESS"))).2.2 (by decide)

/-- C6: when the first `N` enable attempts (with `N` below the
20-attempt budget) each classify as conflict-in-progress and attempt
`N + 1` returns a normal operation id, the backoff loop returns that id
after exactly `N` retries. -/
theorem C6_awaitEnableSlot (ou_id : String) (responses : Nat → EnableResponse)
    (N : Nat) (opId : String) (hN : N < enableAttemptBudget)
    (hconf : ∀ i, i < N →
      enable_baseline (responses i) = .ret (some "IN_PROGRESS"))
    (hid : enable_baseline (responses N) = .ret (some opId))
    (h1 : opId ≠ "") (h2 : opId ≠ "IN_PROGRESS") :
    wait_for_in_progress_operations ou_id responses = .ok (some opId, N) := by
  unfold wait_for_in_progress_operations
  have := wait_aux_first ou_id responses opId h1 h2 N enableAttemptBudget 0 hN
    (fun j hj => by rw [Nat.zero_add, hconf j hj]; rfl)
    (by rw [Nat.zero_add]; exact hid)
  simpa using this

/-- Witness for C6: two conflict-in-progress responses followed by a
normal operation id make the loop return that id after 2 retries. -/
theorem C6_witness :
    wait_for_in_progress_operations "ou-1"
      (fun i => if i < 2
        then .err "ConflictException" "another operation is in progress"
        else .ok (some "op-7")) = .ok (some "op-7", 2) :=
  C6_awaitEnableSlot "ou-1"
    (fun i => if i < 2
      then .err "ConflictException" "another operation is in progress"
      else .ok (some "op-7")) 2 "op-7" (by decide) (by decide) (by decide)
    (by decide) (by decide)

/-- C7: when all 20 enable attempts classify as conflict-in-progress or
raise, the backoff loop raises its timeout failure after exhausting the
attempt budget. -/
theorem C7_awaitEnableSlot_timeout (ou_id : String)
    (responses : Nat → EnableResponse)
    (h : ∀ i, i < enableAttemptBudget →
      enable_baseline (responses i) = .ret (some "IN_PROGRESS") ∨
        ∃ c m, enable_baseline (responses i) = .raised c m) :
    wait_for_in_progress_operations ou_id responses =
      .error ("Timed out waiting for in-progress operations for OU " ++ ou_id) := by
  unfold wait_for_in_progress_operations
  apply wait_aux_timeout
  intro j hj
  rw [Nat.zero_add]
  rcases h j hj with h1 | ⟨c, m, h1⟩ <;> rw [h1] <;> rfl

/-- Witness for C7: a run whose every attempt hits the in-progress
conflict times out with the loop's error message. -/
theorem C7_witness :
    wait_for_in_progress_operations "ou-3"
      (fun _ => .err "ConflictException" "another operation is in progress") =
      .error "Timed out waiting for in-progress operations for OU ou-3" :=
  C7_awaitEnableSlot_timeout "ou-3"
    (fun _ => .err "ConflictException" "another operation is in progress")
    fun _ _ => Or.inl rfl

/-- C8: whenever the backoff loop yields the already-registered outcome
(`None`), `register_ou` returns `true` without ever invoking the
poller. -/
theorem C8_registerOne_skip (ou_id : String) (responses : Nat → EnableResponse)
    (k : Nat)
    (h : wait_for_in_progress_operations ou_id responses = .ok (none, k))
    (polls : Nat → PollResponse) :
    register_ou ou_id responses polls = (true, false) := by
  simp [register_ou, h]

/-- Witness for C8: an already-governed conflict makes `register_ou`
return `true` without polling, even against a poller that would report
failure. -/
theorem C8_witness :
    register_ou "ou-5"
      (fun _ => .err "ConflictException" "Target is already governed")
      (fun _ => .ok (some "FAILED")) = (true, false) :=
  C8_registerOne_skip "ou-5"
    (fun _ => .err "ConflictException" "Target is already governed") 0 rfl
    (fun _ => .ok (some "FAILED"))

/-- C10: an enable call that succeeds with no `operationIdentifier`
field makes `enable_baseline` return `None`; the backoff loop passes
that `None` through as the already-registered outcome, and
`register_ou` returns `true` without any polling. -/
theorem C10_missing_operation_identifier (ou_id : String)
    (responses : Nat → EnableResponse) (h : responses 0 = .ok none) :
    enable_baseline (responses 0) = .ret none
    ∧ wait_for_in_progress_operations ou_id responses = .ok (none, 0)
    ∧ ∀ polls, register_ou ou_id responses polls = (true, false) := by
  have he : enable_baseline (responses 0) = .ret none := by rw [h]; rfl
  have hw : wait_for_in_progress_operations ou_id responses = .ok (none, 0) := by
    unfold wait_for_in_progress_operations enableAttemptBudget
    exact wait_aux_return_none ou_id responses 19 0 he
  exact ⟨he, hw, fun polls => by simp [register_ou, hw]⟩

/-- Witness for C10: a run whose first enable response is an acceptance
with a missing operation id reports success with no poll, even against
a poller that would report failure. -/
theorem C10_witness :
    register_ou "ou-8" (fun _ => .ok none) (fun _ => .ok (some "FAILED")) =
      (true, false) :=
  (C10_missing_operation_identifier "ou-8" (fun _ => .ok none) rfl).2.2
    fun _ => .ok (some "FAILED")

end CT
